import Mathlib

/-!
Shallow embedding of `src/evidently_flow.py` (a drift-monitoring script:
database preparer `prep_db`, loader `prep_data`, metrics calculator
`calculate_metrics`, persister `save_metrics_to_db`, and the batch-iterator
flow `monitor` / `create_metrics`).

Modelling choices:
* pandas cell values are `PdVal` (null, integer, rational standing for a
  numeric value, timestamp); a DataFrame is a column-oriented association
  list from column name to the list of cell values of that column.
* `datetime.datetime` values are integers counting seconds on a uniform
  time axis (`datetime y m d hh mi`); `datetime.timedelta(days=1)` is
  `oneDay = 86400` seconds, exactly the arithmetic Python's naive
  datetimes use.
* The external drift library (`Report`, `report.as_dict()`) is out of
  scope per the spec; the report generator is an environment parameter
  producing a `JVal` (a dict/list/number tree), and the extraction code
  of `calculate_metrics` indexes into it exactly like the Python
  subscript chain, raising `keyError` / `indexError` / `typeError`.
* The trained model is an environment parameter: a function from the
  feature DataFrame to the list of predictions (one per row by
  construction of the environments used here).
* Exceptions are `Except PyErr`; database effects are explicit state
  passing (`PgState`, executed-statement traces, printed lines).
* The Python literal `...` (Ellipsis) that `monitor` assigns to
  `raw_data`, `ref_data`, `model` mid-flow is `PyObj.oellipsis`;
  attribute access on it fails with `attributeError` as in Python.
-/

/-- A pandas cell value: null (NaN), an integer, a rational number
standing for a float, or a timestamp on the integer time axis. -/
inductive PdVal where
  | vnull : PdVal
  | vint : ℤ → PdVal
  | vnum : ℚ → PdVal
  | vtime : ℤ → PdVal
deriving DecidableEq, Repr

/-- One day of `datetime.timedelta(days=1)`, in seconds. -/
def oneDay : ℤ := 86400

/-- Day number of a Gregorian calendar date (days-from-civil formula);
only used to give the hard-coded dates of the source concrete values on
the uniform time axis. -/
def daysFromCivil (y m d : Nat) : Nat :=
  let yy := if m ≤ 2 then y - 1 else y
  let mm := if m ≤ 2 then m + 12 else m
  365 * yy + yy / 4 - yy / 100 + yy / 400 + (153 * (mm - 3) + 2) / 5 + d - 1

/-- `datetime.datetime(y, m, d, hh, mi)` as seconds on the time axis. -/
def datetime (y m d hh mi : Nat) : ℤ :=
  86400 * (daysFromCivil y m d : ℤ) + 3600 * (hh : ℤ) + 60 * (mi : ℤ)

/-- A pandas DataFrame, column oriented: column name to cell values. -/
abbrev DataFrame := List (String × List PdVal)

/-- Python exceptions relevant to this script. -/
inductive PyErr where
  | psycopgError : PyErr
  | attributeError : PyErr
  | keyError : PyErr
  | indexError : PyErr
  | typeError : PyErr
deriving DecidableEq, Repr

/-- `NUMERICAL` column list of the source. -/
def NUMERICAL : List String :=
  ["passenger_count", "trip_distance", "fare_amount", "total_amount"]

/-- `CATEGORICAL` column list of the source. -/
def CATEGORICAL : List String :=
  ["PULocationID", "DOLocationID"]

/-- Number of rows of a DataFrame (length of its first column). -/
def dfRows (df : DataFrame) : Nat :=
  match df with
  | [] => 0
  | c :: _ => c.2.length

/-- `df[cols]` — column projection; `keyError` when a column is absent. -/
def selectCols (cols : List String) (df : DataFrame) : Except PyErr DataFrame :=
  if cols.all (fun c => (df.lookup c).isSome) then
    .ok (cols.map (fun c => (c, (df.lookup c).getD [])))
  else
    .error .keyError

/-- `fillna(0)` on one cell. -/
def fillVal (v : PdVal) : PdVal :=
  match v with
  | .vnull => .vint 0
  | x => x

/-- `df.fillna(0)` — replace nulls by zero in every column. -/
def fillna0 (df : DataFrame) : DataFrame :=
  df.map (fun ce => (ce.1, ce.2.map fillVal))

/-- `df[name] = vals` — pandas column assignment: replaces the column when
it exists, otherwise appends it. -/
def setCol (df : DataFrame) (name : String) (vals : List PdVal) : DataFrame :=
  if (df.lookup name).isSome then
    df.map (fun ce => if ce.1 = name then (name, vals) else ce)
  else
    df ++ [(name, vals)]

/-- The boolean mask of the monitor loop body,
`(t >= start_date) & (t < end_date)` on one cell: true exactly for a
timestamp in the half-open window. -/
def maskGeLt (s e : ℤ) (v : PdVal) : Bool :=
  match v with
  | .vtime t => decide (s ≤ t) && decide (t < e)
  | _ => false

/-- Boolean-mask row selection on one column. -/
def filterMask {α : Type} : List Bool → List α → List α
  | b :: bs, x :: xs => if b then x :: filterMask bs xs else filterMask bs xs
  | _, _ => []

/-- `raw_data[(raw_data.lpep_pickup_datetime >= s) & (raw_data.lpep_pickup_datetime < e)]`
— the day-batch selection of the monitor loop; attribute access fails when
the pickup column is absent. -/
def selectBatch (df : DataFrame) (s e : ℤ) : Except PyErr DataFrame :=
  match df.lookup "lpep_pickup_datetime" with
  | none => .error .attributeError
  | some ts =>
      .ok (df.map (fun ce => (ce.1, filterMask (ts.map (maskGeLt s e)) ce.2)))

/-- The dict/list/number tree returned by `report.as_dict()`. -/
inductive JVal where
  | jnum : ℚ → JVal
  | jint : ℤ → JVal
  | jarr : List JVal → JVal
  | jobj : List (String × JVal) → JVal

/-- Python `v[k]` on a dict tree. -/
def getKey (k : String) (v : JVal) : Except PyErr JVal :=
  match v with
  | .jobj fields =>
      match fields.lookup k with
      | some x => .ok x
      | none => .error .keyError
  | _ => .error .typeError

/-- Python `v[i]` on a list tree. -/
def getIdx (i : Nat) (v : JVal) : Except PyErr JVal :=
  match v with
  | .jarr xs =>
      match xs.get? i with
      | some x => .ok x
      | none => .error .indexError
  | _ => .error .typeError

/-- `report["metrics"][0]["result"]["drift_score"]`. -/
def extractDriftScore (rep : JVal) : Except PyErr JVal := do
  getKey "drift_score" (← getKey "result" (← getIdx 0 (← getKey "metrics" rep)))

/-- `report["metrics"][1]["result"]["number_of_drifted_columns"]`. -/
def extractNumDrifted (rep : JVal) : Except PyErr JVal := do
  getKey "number_of_drifted_columns" (← getKey "result" (← getIdx 1 (← getKey "metrics" rep)))

/-- `report["metrics"][2]["result"]["current"]["share_of_missing_values"]`. -/
def extractShareMissing (rep : JVal) : Except PyErr JVal := do
  getKey "share_of_missing_values" (← getKey "current" (← getKey "result" (← getIdx 2 (← getKey "metrics" rep))))

/-- The trained model artifact: `model.predict` as a function from the
feature DataFrame to the list of predictions. -/
abbrev PModel := DataFrame → List PdVal

/-- The external report generator (`create_report`, whose body is the
out-of-scope drift library): current data and reference data to the
`as_dict` tree. -/
abbrev ReportGen := DataFrame → DataFrame → JVal

/-- Lines 87-89 of the source:
`current_data["prediction"] = model.predict(current_data[NUMERICAL + CATEGORICAL].fillna(0))`. -/
def addPredictionCol (model : PModel) (current : DataFrame) : Except PyErr DataFrame :=
  match selectCols (NUMERICAL ++ CATEGORICAL) current with
  | .error e => .error e
  | .ok feats => .ok (setCol current "prediction" (model (fillna0 feats)))

/-- `calculate_metrics(current_data, model, ref_data)`: attaches the
prediction column, builds the report, extracts the three scalars by the
fixed subscript chains, and returns them (together with the mutated
current batch, which in Python is an in-place effect). -/
def calculate_metrics (cr : ReportGen) (current : DataFrame) (model : PModel)
    (ref : DataFrame) : Except PyErr ((JVal × JVal × JVal) × DataFrame) :=
  match addPredictionCol model current with
  | .error e => .error e
  | .ok current1 =>
    let report := cr current1 ref
    match extractDriftScore report with
    | .error e => .error e
    | .ok predictionDrift =>
      match extractNumDrifted report with
      | .error e => .error e
      | .ok numDriftedCols =>
        match extractShareMissing report with
        | .error e => .error e
        | .ok shareMissingVals =>
            .ok ((predictionDrift, numDriftedCols, shareMissingVals), current1)

/-- A parameter bound into a SQL statement: the timestamp, or one of the
opaque metric values extracted from the report. -/
inductive SqlParam where
  | ptime : ℤ → SqlParam
  | pval : JVal → SqlParam

/-- One executed SQL statement with its bound parameters. -/
structure SqlStmt where
  sql : String
  params : List SqlParam

/-- The INSERT text of `save_metrics_to_db`. -/
def insertMetricsQuery : String :=
  "INSERT INTO metrics(timestamp, prediction_drift, num_drifted_columns, share_missing_values) VALUES (%s, %s, %s, %s);"

/-- `save_metrics_to_db(cursor, date, prediction_drift, num_drifted_cols, share_missing_vals)`:
the cursor is the list of statements it has executed; the call executes
the one parameterized INSERT. -/
def save_metrics_to_db (cursor : List SqlStmt) (date : ℤ)
    (predictionDrift numDriftedCols shareMissingVals : JVal) : List SqlStmt :=
  cursor ++ [⟨insertMetricsQuery,
    [SqlParam.ptime date, SqlParam.pval predictionDrift,
     SqlParam.pval numDriftedCols, SqlParam.pval shareMissingVals]⟩]

/-- A Python object bound to one of the monitor flow variables `raw_data`,
`ref_data`, `model`: a DataFrame, a model, or the Ellipsis literal `...`
the flow assigns to all three before its loop. -/
inductive PyObj where
  | odf : DataFrame → PyObj
  | omodel : PModel → PyObj
  | oellipsis : PyObj

/-- `model.predict` dispatch used by `calculate_metrics` when called from
the flow: fails with `attributeError` unless the model variable actually
holds a model and the reference variable a DataFrame. -/
def calculate_metricsObj (cr : ReportGen) (current : DataFrame)
    (modelO refO : PyObj) : Except PyErr ((JVal × JVal × JVal) × DataFrame) :=
  match modelO, refO with
  | .omodel m, .odf ref => calculate_metrics cr current m ref
  | _, _ => .error .attributeError

/-- `create_metrics(start_date, ref_data, model, cursor, current_data)`:
calls the calculator and then the persister with the same `start_date`. -/
def create_metrics (cr : ReportGen) (start : ℤ) (refO modelO : PyObj)
    (cursor : List SqlStmt) (current : DataFrame) : Except PyErr (List SqlStmt) :=
  match calculate_metricsObj cr current modelO refO with
  | .error e => .error e
  | .ok ((predictionDrift, numDriftedCols, shareMissingVals), _) =>
      .ok (save_metrics_to_db cursor start predictionDrift numDriftedCols shareMissingVals)

/-- Server state of the PostgreSQL instance the script talks to. -/
structure PgTable where
  columns : List (String × String)
  rows : List (List SqlParam)

/-- Databases present on the server, and the `metrics` table of the
`test` database when it exists. -/
structure PgState where
  databases : List String
  metricsTable : Option PgTable

/-- The column list of the `CREATE TABLE metrics` statement. -/
def metricsColumns : List (String × String) :=
  [("timestamp", "timestamp"), ("prediction_drift", "float"),
   ("num_drifted_columns", "integer"), ("share_missing_values", "float")]

/-- A freshly created, empty `metrics` table. -/
def freshMetricsTable : PgTable := ⟨metricsColumns, []⟩

/-- Fault model for `prep_db`: whether the connection to the server and
the subsequent connection to the `test` database succeed, plus the
initial server state. -/
structure PgWorld where
  outerOk : Bool
  innerOk : Bool
  st : PgState

def selectDatnameQuery : String := "SELECT 1 FROM pg_database WHERE datname=test"

def createDatabaseQuery : String := "CREATE DATABASE test;"

/-- The `DROP TABLE IF EXISTS metrics; CREATE TABLE metrics(...)` script
of `prep_db`, executed as one statement. -/
def createTableQuery : String :=
  "DROP TABLE IF EXISTS metrics; CREATE TABLE metrics(timestamp timestamp, prediction_drift float, num_drifted_columns integer, share_missing_values float);"

def failedPgMsg : String := "Failed to connect to PostgreSQL"

def failedTestMsg : String := "Failed to connect to test database"

/-- Observable outcome of `prep_db`: raised-or-returned, final server
state, printed lines, executed statements in order. -/
structure PrepOut where
  result : Except PyErr Unit
  st : PgState
  printed : List String
  executed : List String

/-- `prep_db()`: connect; look the `test` database up in `pg_database`
and create it when absent; connect to it and run the drop-and-create
script. A connection failure at either point prints and re-raises (the
inner failure is also caught and printed again by the outer handler). -/
def prep_db (w : PgWorld) : PrepOut :=
  if w.outerOk then
    let st1 :=
      if "test" ∈ w.st.databases then w.st
      else { w.st with databases := w.st.databases ++ ["test"] }
    let exec1 :=
      if "test" ∈ w.st.databases then [selectDatnameQuery]
      else [selectDatnameQuery, createDatabaseQuery]
    if w.innerOk then
      ⟨.ok (), { st1 with metricsTable := some freshMetricsTable }, [],
        exec1 ++ [createTableQuery]⟩
    else
      ⟨.error .psycopgError, st1, [failedTestMsg, failedPgMsg], exec1⟩
  else
    ⟨.error .psycopgError, w.st, [failedPgMsg], []⟩

/-- What the fixed-path readers of `prep_data` return: `pd.read_parquet`
per path, and `joblib.load` for the model artifact. -/
structure LoaderEnv where
  readParquet : String → DataFrame
  joblibLoad : String → PModel

/-- A read of one external artifact, for recording read order. -/
inductive ReadEvent where
  | parquetRead : String → ReadEvent
  | joblibRead : String → ReadEvent
deriving DecidableEq, Repr

/-- `prep_data()`: reads the reference table, then the model, then the
raw table, and returns them untouched (second component: the reads in
the order performed). -/
def prep_data (env : LoaderEnv) : (DataFrame × PModel × DataFrame) × List ReadEvent :=
  let refData := env.readParquet "data/reference.parquet"
  let model := env.joblibLoad "models/lin_reg.bin"
  let rawData := env.readParquet "data/green_tripdata_2022-02.parquet"
  ((refData, model, rawData),
   [ReadEvent.parquetRead "data/reference.parquet",
    ReadEvent.joblibRead "models/lin_reg.bin",
    ReadEvent.parquetRead "data/green_tripdata_2022-02.parquet"])

/-- Environment of one `monitor()` run: the `prep_db` world, the loader
readers, whether the monitor's own database connection succeeds, and the
external report generator. -/
structure MonitorEnv where
  pg : PgWorld
  loader : LoaderEnv
  monConnectOk : Bool
  reportGen : ReportGen

/-- Loop state of the monitor loop: window bounds, the cursor's executed
statements, and the `create_metrics` invocations so far (start date and
the current batch passed). -/
structure LoopSt where
  s : ℤ
  e : ℤ
  cursor : List SqlStmt
  calls : List (ℤ × DataFrame)

/-- `raw_data.lpep_pickup_datetime`-based batch selection on whatever
object the `raw_data` variable holds. -/
def selectBatchObj (rawO : PyObj) (s e : ℤ) : Except PyErr DataFrame :=
  match rawO with
  | .odf df => selectBatch df s e
  | _ => .error .attributeError

/-- The `for _ in range(0, 27)` loop body, iterated on fuel: select the
day batch, invoke `create_metrics`, advance both window bounds by one
day (the `time.sleep(1)` has no observable effect here). On an exception
the loop stops with the observations made so far. -/
def monitorLoop (cr : ReportGen) (rawO refO modelO : PyObj) :
    Nat → LoopSt → LoopSt × Option PyErr
  | 0, st => (st, none)
  | Nat.succ n, st =>
    match selectBatchObj rawO st.s st.e with
    | .error err => (st, some err)
    | .ok current =>
      let st1 : LoopSt := { st with calls := st.calls ++ [(st.s, current)] }
      match create_metrics cr st.s refO modelO st.cursor current with
      | .error err => (st1, some err)
      | .ok cursor1 =>
          monitorLoop cr rawO refO modelO n
            { s := st1.s + oneDay, e := st1.e + oneDay,
              cursor := cursor1, calls := st1.calls }

/-- Observable outcome of one `monitor()` run. -/
structure MonitorOut where
  result : Except PyErr Unit
  calls : List (ℤ × DataFrame)
  cursor : List SqlStmt
  printed : List String

/-- `monitor()` as written in the source: prepare the database, load the
artifacts, connect, then reset the window to 2023-02-01, reassign
`raw_data`, `ref_data` and `model` to the Ellipsis placeholder, and run
the 27-day loop. -/
def monitor (env : MonitorEnv) : MonitorOut :=
  let startDate0 : ℤ := datetime 2022 2 1 0 0
  let endDate0 : ℤ := datetime 2022 2 2 0 0
  let pout := prep_db env.pg
  match pout.result with
  | .error e => ⟨.error e, [], [], pout.printed⟩
  | .ok _ =>
    let artifacts := (prep_data env.loader).1
    if env.monConnectOk then
      let startDate : ℤ := datetime 2023 2 1 0 0
      let endDate : ℤ := startDate + oneDay
      let rawO : PyObj := PyObj.oellipsis
      let refO : PyObj := PyObj.oellipsis
      let modelO : PyObj := PyObj.oellipsis
      let _ := (startDate0, endDate0, artifacts, endDate)
      let res := monitorLoop env.reportGen rawO refO modelO 27
        ⟨startDate, endDate, [], []⟩
      match res.2 with
      | some e =>
          ⟨.error e, res.1.calls, res.1.cursor,
            pout.printed ++ (if e = PyErr.psycopgError then ["Database connection failed"] else [])⟩
      | none => ⟨.ok (), res.1.calls, res.1.cursor, pout.printed⟩
    else
      ⟨.error .psycopgError, [], [], pout.printed ++ ["Database connection failed"]⟩

/-- `monitor()` with the three placeholder reassignments of lines
156-158 removed: the loop variables keep the artifacts returned by
`prep_data`. Comparison program for the dead-code claim. -/
def monitorNoReinit (env : MonitorEnv) : MonitorOut :=
  let startDate0 : ℤ := datetime 2022 2 1 0 0
  let endDate0 : ℤ := datetime 2022 2 2 0 0
  let pout := prep_db env.pg
  match pout.result with
  | .error e => ⟨.error e, [], [], pout.printed⟩
  | .ok _ =>
    let artifacts := (prep_data env.loader).1
    if env.monConnectOk then
      let startDate : ℤ := datetime 2023 2 1 0 0
      let endDate : ℤ := startDate + oneDay
      let rawO : PyObj := PyObj.odf artifacts.2.2
      let refO : PyObj := PyObj.odf artifacts.1
      let modelO : PyObj := PyObj.omodel artifacts.2.1
      let _ := (startDate0, endDate0, endDate)
      let res := monitorLoop env.reportGen rawO refO modelO 27
        ⟨startDate, endDate, [], []⟩
      match res.2 with
      | some e =>
          ⟨.error e, res.1.calls, res.1.cursor,
            pout.printed ++ (if e = PyErr.psycopgError then ["Database connection failed"] else [])⟩
      | none => ⟨.ok (), res.1.calls, res.1.cursor, pout.printed⟩
    else
      ⟨.error .psycopgError, [], [], pout.printed ++ ["Database connection failed"]⟩

/-! Concrete environments, mirroring the mock objects of
`src/pytests/test_monitoring.py`. -/

/-- The mocked `report.as_dict()` tree of the tests: drift score 0.1 at
index 0, one drifted column at index 1, missing-value share 0.01 at
index 2. -/
def mockReport : JVal :=
  JVal.jobj [("metrics", JVal.jarr
    [JVal.jobj [("result", JVal.jobj [("drift_score", JVal.jnum (1/10))])],
     JVal.jobj [("result", JVal.jobj [("number_of_drifted_columns", JVal.jint 1)])],
     JVal.jobj [("result", JVal.jobj
       [("current", JVal.jobj [("share_of_missing_values", JVal.jnum (1/100))])])]])]

/-- A report generator that always yields `mockReport`. -/
def mockReportGen : ReportGen := fun _ _ => mockReport

/-- The mocked reference table of the tests (one row). -/
def mockRefDf : DataFrame :=
  [("passenger_count", [PdVal.vint 1]), ("trip_distance", [PdVal.vnum 1]),
   ("fare_amount", [PdVal.vnum 10]), ("total_amount", [PdVal.vnum 12]),
   ("PULocationID", [PdVal.vint 1]), ("DOLocationID", [PdVal.vint 4])]

/-- The mocked raw table of the tests (one row, pickup on 2022-02-01). -/
def mockRawDf : DataFrame :=
  [("lpep_pickup_datetime", [PdVal.vtime (datetime 2022 2 1 0 0)]),
   ("passenger_count", [PdVal.vint 1]), ("trip_distance", [PdVal.vnum 1]),
   ("fare_amount", [PdVal.vnum 10]), ("total_amount", [PdVal.vnum 12]),
   ("PULocationID", [PdVal.vint 1]), ("DOLocationID", [PdVal.vint 4])]

/-- `mockRawDf[NUMERICAL + CATEGORICAL]`, written out. -/
def mockFeats : DataFrame :=
  [("passenger_count", [PdVal.vint 1]), ("trip_distance", [PdVal.vnum 1]),
   ("fare_amount", [PdVal.vnum 10]), ("total_amount", [PdVal.vnum 12]),
   ("PULocationID", [PdVal.vint 1]), ("DOLocationID", [PdVal.vint 4])]

/-- A mocked model: one constant prediction per row of its input. -/
def mockModelFn : PModel := fun df => List.replicate (dfRows df) (PdVal.vnum 15)

/-- A run environment in which every connection succeeds, the readers
return the mocked tables and model, and the report generator returns
`mockReport`. -/
def envC2 : MonitorEnv :=
  ⟨⟨true, true, ⟨["postgres"], none⟩⟩,
   ⟨fun p => if p = "data/reference.parquet" then mockRefDf else mockRawDf,
    fun _ => mockModelFn⟩,
   true, mockReportGen⟩

/-! Helper lemmas. -/

/-- Column lookup commutes with mapping a function over the values of
every column. -/
theorem lookup_map_snd {β γ : Type} (f : β → γ) (k : String) :
    ∀ l : List (String × β),
      (l.map (fun ce => (ce.1, f ce.2))).lookup k = (l.lookup k).map f
  | [] => rfl
  | (a, b) :: t => by
    by_cases h : (k == a) = true <;>
      simp [List.lookup, h, lookup_map_snd f k t]

/-- Masking a list with its own pointwise predicate is filtering. -/
theorem filterMask_map_self {α : Type} (p : α → Bool) :
    ∀ xs : List α, filterMask (xs.map p) xs = xs.filter p
  | [] => rfl
  | x :: xs => by
    by_cases h : p x <;>
      simp [filterMask, h, filterMask_map_self p xs, List.filter_cons]

/-! Claim theorems. -/

/-- Claim C3: for every current batch, model and reference dataset, when
the report generator returns a structure whose metric list holds
drift_score at index 0, number_of_drifted_columns at index 1 and
current.share_of_missing_values at index 2, `calculate_metrics` returns
exactly those three values unchanged and in that order. -/
theorem calculate_metrics_passes_report_values (cr : ReportGen)
    (current : DataFrame) (model : PModel) (ref : DataFrame) (feats : DataFrame)
    (hsel : selectCols (NUMERICAL ++ CATEGORICAL) current = .ok feats)
    (a b c : JVal)
    (ha : ∀ cur rf, extractDriftScore (cr cur rf) = .ok a)
    (hb : ∀ cur rf, extractNumDrifted (cr cur rf) = .ok b)
    (hc : ∀ cur rf, extractShareMissing (cr cur rf) = .ok c) :
    calculate_metrics cr current model ref =
      .ok ((a, b, c), setCol current "prediction" (model (fillna0 feats))) := by
  have h1 : addPredictionCol model current =
      .ok (setCol current "prediction" (model (fillna0 feats))) := by
    simp [addPredictionCol, hsel]
  simp [calculate_metrics, h1, ha, hb, hc]

/-- Witness for C3 at the mocked batch, model and report of the tests:
the mocked report holds 0.1, 1 and 0.01, and the calculator returns
exactly those. -/
theorem calculate_metrics_passes_report_values_witness :
    selectCols (NUMERICAL ++ CATEGORICAL) mockRawDf = .ok mockFeats ∧
    calculate_metrics mockReportGen mockRawDf mockModelFn mockRefDf =
      .ok ((JVal.jnum (1/10), JVal.jint 1, JVal.jnum (1/100)),
        setCol mockRawDf "prediction" (mockModelFn (fillna0 mockFeats))) :=
  ⟨rfl, calculate_metrics_passes_report_values mockReportGen mockRawDf mockModelFn
    mockRefDf mockFeats rfl (JVal.jnum (1/10)) (JVal.jint 1) (JVal.jnum (1/100))
    (fun _ _ => rfl) (fun _ _ => rfl) (fun _ _ => rfl)⟩

/-- Claim C4: the day-batch selection of the monitor loop keeps exactly
the rows whose pickup timestamp t satisfies s ≤ t < e (every column
masked by that predicate on the pickup column); a pickup timestamp equal
to the window end is not included. -/
theorem selectBatch_half_open (df : DataFrame) (s e : ℤ) (ts : List PdVal)
    (h : df.lookup "lpep_pickup_datetime" = some ts) :
    selectBatch df s e =
      Except.ok (df.map (fun ce => (ce.1, filterMask (ts.map (maskGeLt s e)) ce.2))) ∧
    (df.map (fun ce => (ce.1, filterMask (ts.map (maskGeLt s e)) ce.2))).lookup
        "lpep_pickup_datetime" = some (ts.filter (maskGeLt s e)) ∧
    (∀ t : ℤ, PdVal.vtime t ∈ ts.filter (maskGeLt s e) ↔
      (PdVal.vtime t ∈ ts ∧ s ≤ t ∧ t < e)) ∧
    PdVal.vtime e ∉ ts.filter (maskGeLt s e) := by
  refine ⟨by simp [selectBatch, h], ?_, ?_, ?_⟩
  · rw [lookup_map_snd (filterMask (ts.map (maskGeLt s e))) "lpep_pickup_datetime" df, h]
    simp [filterMask_map_self]
  · intro t
    simp [List.mem_filter, maskGeLt, and_assoc]
  · simp [List.mem_filter, maskGeLt]

/-- Witness for C4 at a two-row table with pickups at the window start
and exactly at the window end: only the first row survives. -/
theorem selectBatch_half_open_witness :
    ([("lpep_pickup_datetime", [PdVal.vtime 0, PdVal.vtime 86400])] :
        DataFrame).lookup "lpep_pickup_datetime" =
      some [PdVal.vtime 0, PdVal.vtime 86400] ∧
    (selectBatch [("lpep_pickup_datetime", [PdVal.vtime 0, PdVal.vtime 86400])] 0 86400 =
      Except.ok ([("lpep_pickup_datetime", [PdVal.vtime 0, PdVal.vtime 86400])].map
        (fun ce => (ce.1, filterMask ([PdVal.vtime 0, PdVal.vtime 86400].map
          (maskGeLt 0 86400)) ce.2))) ∧
    ([("lpep_pickup_datetime", [PdVal.vtime 0, PdVal.vtime 86400])].map
        (fun ce => (ce.1, filterMask ([PdVal.vtime 0, PdVal.vtime 86400].map
          (maskGeLt 0 86400)) ce.2))).lookup "lpep_pickup_datetime" =
      some ([PdVal.vtime 0, PdVal.vtime 86400].filter (maskGeLt 0 86400)) ∧
    (∀ t : ℤ, PdVal.vtime t ∈ [PdVal.vtime 0, PdVal.vtime 86400].filter (maskGeLt 0 86400) ↔
      (PdVal.vtime t ∈ [PdVal.vtime 0, PdVal.vtime 86400] ∧ 0 ≤ t ∧ t < 86400)) ∧
    PdVal.vtime 86400 ∉ [PdVal.vtime 0, PdVal.vtime 86400].filter (maskGeLt 0 86400)) :=
  ⟨rfl, selectBatch_half_open
    [("lpep_pickup_datetime", [PdVal.vtime 0, PdVal.vtime 86400])] 0 86400
    [PdVal.vtime 0, PdVal.vtime 86400] rfl⟩

/-- Claim C5: every `save_metrics_to_db` call executes exactly one
statement beyond what the cursor already executed — the parameterized
INSERT into metrics, parameters bound in the order (timestamp,
prediction_drift, num_drifted_columns, share_missing_values). -/
theorem save_metrics_single_insert (cursor : List SqlStmt) (date : ℤ)
    (a b c : JVal) :
    save_metrics_to_db cursor date a b c =
      cursor ++ [⟨insertMetricsQuery,
        [SqlParam.ptime date, SqlParam.pval a, SqlParam.pval b, SqlParam.pval c]⟩] ∧
    (save_metrics_to_db cursor date a b c).length = cursor.length + 1 ∧
    (save_metrics_to_db cursor date a b c).take cursor.length = cursor := by
  refine ⟨rfl, by simp [save_metrics_to_db], ?_⟩
  simp [save_metrics_to_db, List.take_left]

/-- Claim C9: `prep_data` returns the triple (reference dataset, model,
raw dataset) exactly as the readers produced them, and performs the
reads in that order. -/
theorem prep_data_identity_order (env : LoaderEnv) :
    prep_data env =
      ((env.readParquet "data/reference.parquet",
        env.joblibLoad "models/lin_reg.bin",
        env.readParquet "data/green_tripdata_2022-02.parquet"),
       [ReadEvent.parquetRead "data/reference.parquet",
        ReadEvent.joblibRead "models/lin_reg.bin",
        ReadEvent.parquetRead "data/green_tripdata_2022-02.parquet"]) := rfl

/-- A current batch that already carries a `prediction` column. -/
def cexCurrent : DataFrame :=
  [("passenger_count", [PdVal.vint 1]), ("trip_distance", [PdVal.vnum 1]),
   ("fare_amount", [PdVal.vnum 10]), ("total_amount", [PdVal.vnum 12]),
   ("PULocationID", [PdVal.vint 1]), ("DOLocationID", [PdVal.vint 4]),
   ("prediction", [PdVal.vint 0])]

/-- A model whose predictions differ from the pre-existing `prediction`
values of `cexCurrent`. -/
def cexModelFn : PModel := fun df => List.replicate (dfRows df) (PdVal.vint 99)

/-- `cexCurrent` after `calculate_metrics`: the pre-existing `prediction`
column overwritten in place. -/
def cexAfter : DataFrame :=
  [("passenger_count", [PdVal.vint 1]), ("trip_distance", [PdVal.vnum 1]),
   ("fare_amount", [PdVal.vnum 10]), ("total_amount", [PdVal.vnum 12]),
   ("PULocationID", [PdVal.vint 1]), ("DOLocationID", [PdVal.vint 4]),
   ("prediction", [PdVal.vint 99])]

/-- Counterexample to claim C8 as stated: on a batch that already has a
`prediction` column, `calculate_metrics` does not add a new column — it
overwrites the pre-existing column (values change from 0 to 99, the
column count stays the same), so not every pre-existing column is left
unchanged. -/
theorem calculate_metrics_overwrites_existing_prediction :
    calculate_metrics mockReportGen cexCurrent cexModelFn mockRefDf =
      .ok ((JVal.jnum (1/10), JVal.jint 1, JVal.jnum (1/100)), cexAfter) ∧
    cexCurrent.lookup "prediction" = some [PdVal.vint 0] ∧
    cexAfter.lookup "prediction" = some [PdVal.vint 99] ∧
    cexAfter.length = cexCurrent.length :=
  ⟨rfl, rfl, rfl, rfl⟩

/-- Claim C8 (amended: for a batch with no pre-existing `prediction`
column): `calculate_metrics` changes the batch only by appending the
single new column `prediction`, computed as the model output on the
numerical+categorical feature columns with missing values filled as
zero; every pre-existing column (names, order, values) is unchanged. -/
theorem calculate_metrics_adds_prediction_only (model : PModel)
    (current : DataFrame) (feats : DataFrame)
    (hsel : selectCols (NUMERICAL ++ CATEGORICAL) current = .ok feats)
    (hpred : current.lookup "prediction" = none) :
    addPredictionCol model current =
      .ok (current ++ [("prediction", model (fillna0 feats))]) ∧
    ∀ (cr : ReportGen) (ref : DataFrame) (out : (JVal × JVal × JVal) × DataFrame),
      calculate_metrics cr current model ref = .ok out →
      out.2 = current ++ [("prediction", model (fillna0 feats))] := by
  have h1 : addPredictionCol model current =
      .ok (current ++ [("prediction", model (fillna0 feats))]) := by
    simp [addPredictionCol, hsel, setCol, hpred]
  refine ⟨h1, ?_⟩
  intro cr ref out hout
  rw [calculate_metrics, h1] at hout
  cases hd : extractDriftScore (cr (current ++ [("prediction", model (fillna0 feats))]) ref) with
  | error e => simp [hd] at hout
  | ok a =>
    cases hn : extractNumDrifted (cr (current ++ [("prediction", model (fillna0 feats))]) ref) with
    | error e => simp [hd, hn] at hout
    | ok b =>
      cases hs : extractShareMissing (cr (current ++ [("prediction", model (fillna0 feats))]) ref) with
      | error e => simp [hd, hn, hs] at hout
      | ok c =>
        simp [hd, hn, hs] at hout
        rw [← hout]

/-- Witness for C8 (amended) at the mocked batch of the tests, which has
no `prediction` column. -/
theorem calculate_metrics_adds_prediction_only_witness :
    selectCols (NUMERICAL ++ CATEGORICAL) mockRawDf = .ok mockFeats ∧
    mockRawDf.lookup "prediction" = none ∧
    addPredictionCol mockModelFn mockRawDf =
      .ok (mockRawDf ++ [("prediction", mockModelFn (fillna0 mockFeats))]) :=
  ⟨rfl, rfl,
    (calculate_metrics_adds_prediction_only mockModelFn mockRawDf mockFeats rfl rfl).1⟩

/-- A world where the server connection succeeds, the `test` database is
absent, and the follow-up connection to `test` fails. -/
def cexPgWorld : PgWorld := ⟨true, false, ⟨["postgres"], none⟩⟩

/-- Counterexample to claim C6 as stated: when the `test` database is
absent and the second connection (to `test`) fails, the failed
`prep_db` call has already created the `test` database — the system
state is not unchanged in every other respect. -/
theorem prep_db_connection_error_state_change :
    (prep_db cexPgWorld).result = .error PyErr.psycopgError ∧
    cexPgWorld.st.databases = ["postgres"] ∧
    (prep_db cexPgWorld).st.databases = ["postgres", "test"] ∧
    (prep_db cexPgWorld).st.databases ≠ cexPgWorld.st.databases := by
  refine ⟨rfl, rfl, rfl, ?_⟩
  decide

/-- Behavior of a failed `prep_db` call (conclusion of the amended claim
C6): the error is printed and re-raised, the drop-and-create statement is
never executed, the metrics table is untouched; if the initial connection
failed the state is fully unchanged and nothing was executed, and the
only possible change on an inner-connection failure is the creation of
the `test` database. -/
def prepDbFailBehavior (w : PgWorld) : Prop :=
  (prep_db w).result = .error PyErr.psycopgError ∧
  failedPgMsg ∈ (prep_db w).printed ∧
  createTableQuery ∉ (prep_db w).executed ∧
  (prep_db w).st.metricsTable = w.st.metricsTable ∧
  (w.outerOk = false → (prep_db w).st = w.st ∧ (prep_db w).executed = []) ∧
  (w.outerOk = true → w.innerOk = false →
    (prep_db w).st.databases =
      (if "test" ∈ w.st.databases then w.st.databases
       else w.st.databases ++ ["test"]))

/-- Claim C6 (amended: a failed connection is logged and re-raised and no
table-creation statement is attempted, but the state is unchanged only
for a failure of the initial connection; a failure of the connection to
`test` can leave a newly created `test` database behind). -/
theorem prep_db_connection_error_behavior (w : PgWorld)
    (h : w.outerOk = false ∨ w.innerOk = false) : prepDbFailBehavior w := by
  cases h1 : w.outerOk with
  | false =>
    refine ⟨?_, ?_, ?_, ?_, ?_, ?_⟩ <;>
      simp [prep_db, prepDbFailBehavior, h1]
  | true =>
    have h2 : w.innerOk = false := by
      rcases h with h | h
      · rw [h1] at h; exact absurd h (by simp)
      · exact h
    by_cases hdb : "test" ∈ w.st.databases <;>
      refine ⟨?_, ?_, ?_, ?_, ?_, ?_⟩ <;>
        simp [prep_db, h1, h2, hdb, selectDatnameQuery, createDatabaseQuery,
          createTableQuery]

/-- Witness for C6 (amended) at `cexPgWorld`. -/
theorem prep_db_connection_error_behavior_witness :
    (cexPgWorld.outerOk = false ∨ cexPgWorld.innerOk = false) ∧
    prepDbFailBehavior cexPgWorld :=
  ⟨Or.inr rfl, prep_db_connection_error_behavior cexPgWorld (Or.inr rfl)⟩

/-- Behavior of a successful `prep_db` call (conclusion of claim C7):
the run returns normally, the metrics table afterwards exists with the
four declared columns and no rows whatever the prior state, the `test`
database exists, and the CREATE DATABASE statement was executed exactly
when `test` was absent before the call. -/
def prepDbSuccessBehavior (w : PgWorld) : Prop :=
  (prep_db w).result = .ok () ∧
  (prep_db w).st.metricsTable = some freshMetricsTable ∧
  "test" ∈ (prep_db w).st.databases ∧
  ((createDatabaseQuery ∈ (prep_db w).executed) ↔ "test" ∉ w.st.databases) ∧
  createTableQuery ∈ (prep_db w).executed ∧
  (prep_db w).st.databases =
    (if "test" ∈ w.st.databases then w.st.databases
     else w.st.databases ++ ["test"])

/-- Claim C7: on every successful run, `prep_db` creates the `test`
database exactly when it does not already exist, executes the
drop-and-create script, and leaves a fresh empty metrics table with the
four declared columns, regardless of the prior state. -/
theorem prep_db_success_fresh_metrics (w : PgWorld)
    (h1 : w.outerOk = true) (h2 : w.innerOk = true) : prepDbSuccessBehavior w := by
  by_cases hdb : "test" ∈ w.st.databases <;>
    refine ⟨?_, ?_, ?_, ?_, ?_, ?_⟩ <;>
      simp [prep_db, prepDbSuccessBehavior, h1, h2, hdb, selectDatnameQuery,
        createDatabaseQuery, createTableQuery, freshMetricsTable]

/-- A prior state with a stale, non-empty metrics table and no `test`
database. -/
def stalePgWorld : PgWorld :=
  ⟨true, true, ⟨["postgres"], some ⟨[("old_col", "integer")], [[SqlParam.ptime 0]]⟩⟩⟩

/-- Witness for C7 at `stalePgWorld`: the stale table is replaced by a
fresh empty one and the `test` database gets created. -/
theorem prep_db_success_fresh_metrics_witness :
    stalePgWorld.outerOk = true ∧ stalePgWorld.innerOk = true ∧
    prepDbSuccessBehavior stalePgWorld :=
  ⟨rfl, rfl, prep_db_success_fresh_metrics stalePgWorld rfl rfl⟩

/-- Shared computation: because `monitor` reassigns `raw_data` to the
Ellipsis placeholder before the loop, the first attribute access of the
loop raises AttributeError — no `create_metrics` call is made, no INSERT
is executed, and the flow re-raises the error. -/
theorem monitor_aborts (env : MonitorEnv) (h1 : env.pg.outerOk = true)
    (h2 : env.pg.innerOk = true) (h3 : env.monConnectOk = true) :
    (monitor env).calls = [] ∧ (monitor env).cursor = [] ∧
    (monitor env).result = .error PyErr.attributeError := by
  have hloop : ∀ st : LoopSt,
      monitorLoop env.reportGen PyObj.oellipsis PyObj.oellipsis PyObj.oellipsis
        27 st = (st, some PyErr.attributeError) := fun st => rfl
  refine ⟨?_, ?_, ?_⟩ <;> simp [monitor, prep_db, h1, h2, h3, hloop]

/-- Loop invariant of the monitor loop: however far it gets, the start
dates recorded with the `create_metrics` invocations are consecutive
days counted from the loop state's start date. -/
theorem monitorLoop_dates (cr : ReportGen) (rawO refO modelO : PyObj) :
    ∀ (n : Nat) (st : LoopSt), ∃ k : Nat,
      (monitorLoop cr rawO refO modelO n st).1.calls.map Prod.fst =
        st.calls.map Prod.fst ++
          (List.range k).map (fun i : Nat => st.s + (i : ℤ) * oneDay)
  | 0, st => ⟨0, by simp [monitorLoop]⟩
  | Nat.succ n, st => by
    cases hsel : selectBatchObj rawO st.s st.e with
    | error err =>
        exact ⟨0, by simp [monitorLoop, hsel]⟩
    | ok current =>
      cases hcm : create_metrics cr st.s refO modelO st.cursor current with
      | error err =>
          refine ⟨1, ?_⟩
          simp [monitorLoop, hsel, hcm, List.range_succ]
      | ok cursor1 =>
          obtain ⟨k, hk⟩ := monitorLoop_dates cr rawO refO modelO n
            ⟨st.s + oneDay, st.e + oneDay, cursor1, st.calls ++ [(st.s, current)]⟩
          refine ⟨k + 1, ?_⟩
          have hstep : monitorLoop cr rawO refO modelO (Nat.succ n) st =
              monitorLoop cr rawO refO modelO n
                ⟨st.s + oneDay, st.e + oneDay, cursor1, st.calls ++ [(st.s, current)]⟩ := by
            simp [monitorLoop, hsel, hcm]
          rw [hstep, hk]
          simp only [List.map_append, List.map_cons, List.map_nil,
            List.range_succ_eq_map, List.map_map]
          rw [List.append_assoc]
          congr 1
          rw [List.singleton_append]
          congr 1
          · simp
          · apply List.map_congr_left
            intro a _
            simp [Function.comp]
            ring

/-- The calls of `monitorNoReinit` are those of the 27-iteration loop
started at 2023-02-01 on the loader's artifacts. -/
theorem monitorNoReinit_calls (env : MonitorEnv) (h1 : env.pg.outerOk = true)
    (h2 : env.pg.innerOk = true) (h3 : env.monConnectOk = true) :
    (monitorNoReinit env).calls =
      (monitorLoop env.reportGen
        (PyObj.odf (prep_data env.loader).1.2.2)
        (PyObj.odf (prep_data env.loader).1.1)
        (PyObj.omodel (prep_data env.loader).1.2.1) 27
        ⟨datetime 2023 2 1 0 0, datetime 2023 2 1 0 0 + oneDay, [], []⟩).1.calls := by
  simp only [monitorNoReinit, prep_db, h1, h2, h3, if_true, eq_self_iff_true,
    ite_true]
  split <;> rfl

/-- Claim C1 (the code bug it runs into): in every run where the
database preparer and loader succeed, the monitor flow as written makes
zero `create_metrics` invocations — the loop crashes on the placeholder
`raw_data` at its first selection — instead of the 27 its own test
expects. -/
theorem monitor_create_metrics_never_invoked (env : MonitorEnv)
    (h1 : env.pg.outerOk = true) (h2 : env.pg.innerOk = true)
    (h3 : env.monConnectOk = true) :
    (monitor env).calls = [] ∧ (monitor env).result = .error PyErr.attributeError :=
  ⟨(monitor_aborts env h1 h2 h3).1, (monitor_aborts env h1 h2 h3).2.2⟩

/-- Witness for C1 at the all-mocks environment. -/
theorem monitor_create_metrics_never_invoked_witness :
    envC2.pg.outerOk = true ∧ envC2.pg.innerOk = true ∧ envC2.monConnectOk = true ∧
    ((monitor envC2).calls = [] ∧
      (monitor envC2).result = .error PyErr.attributeError) :=
  ⟨rfl, rfl, rfl, monitor_create_metrics_never_invoked envC2 rfl rfl rfl⟩

/-- Claim C2 (the reinitializations are not dead code): at the
all-mocks environment, the flow as written makes 0 `create_metrics`
calls and raises AttributeError, while the same flow with the three
placeholder reassignments removed completes normally with exactly 27
calls and 27 INSERTs on the loader's artifacts. -/
theorem monitor_reinit_changes_behavior :
    (monitor envC2).calls.length = 0 ∧
    (monitor envC2).result = Except.error PyErr.attributeError ∧
    (monitorNoReinit envC2).calls.length = 27 ∧
    (monitorNoReinit envC2).result = Except.ok () ∧
    (monitorNoReinit envC2).cursor.length = 27 :=
  ⟨rfl, rfl, rfl, rfl, rfl⟩

/-- Conclusion of claim C10: every `create_metrics` invocation the loop
makes at (0-based) iteration i carries the start date 2023-02-01 plus i
days — the window start, never the window end. -/
def persistsWindowStart (out : MonitorOut) : Prop :=
  ∀ (i : Nat) (hi : i < out.calls.length),
    (out.calls.get ⟨i, hi⟩).1 = datetime 2023 2 1 0 0 + (i : ℤ) * oneDay ∧
    (out.calls.get ⟨i, hi⟩).1 ≠ datetime 2023 2 1 0 0 + ((i : ℤ) + 1) * oneDay

/-- Claim C10: in the loop with the placeholder reassignments removed,
iteration i's `create_metrics` call carries timestamp 2023-02-01 + i
days (the window start, not the window end, independent of the batch
contents), and `create_metrics` binds exactly that timestamp as the
INSERT's first parameter; the flow as written stores nothing at all. -/
theorem monitor_timestamps_window_start (env : MonitorEnv)
    (h1 : env.pg.outerOk = true) (h2 : env.pg.innerOk = true)
    (h3 : env.monConnectOk = true) :
    persistsWindowStart (monitorNoReinit env) ∧
    (∀ (cr : ReportGen) (start : ℤ) (refO modelO : PyObj) (cursor : List SqlStmt)
        (current : DataFrame) (cursor1 : List SqlStmt),
      create_metrics cr start refO modelO cursor current = .ok cursor1 →
      ∃ a b c : JVal, cursor1 = save_metrics_to_db cursor start a b c) ∧
    (monitor env).cursor = [] := by
  refine ⟨?_, ?_, (monitor_aborts env h1 h2 h3).2.1⟩
  · obtain ⟨k, hk⟩ := monitorLoop_dates env.reportGen
      (PyObj.odf (prep_data env.loader).1.2.2)
      (PyObj.odf (prep_data env.loader).1.1)
      (PyObj.omodel (prep_data env.loader).1.2.1) 27
      ⟨datetime 2023 2 1 0 0, datetime 2023 2 1 0 0 + oneDay, [], []⟩
    rw [← monitorNoReinit_calls env h1 h2 h3] at hk
    simp only [List.map_nil, List.nil_append] at hk
    intro i hi
    have hlen : (monitorNoReinit env).calls.length = k := by
      have hc := congrArg List.length hk
      simpa using hc
    have hi2 : i < k := hlen ▸ hi
    have e1 : ((monitorNoReinit env).calls.map Prod.fst).get? i =
        some (((monitorNoReinit env).calls.get ⟨i, hi⟩).1) := by
      rw [List.get?_map, List.get?_eq_get hi]
      rfl
    have e2 : ((monitorNoReinit env).calls.map Prod.fst).get? i =
        some (datetime 2023 2 1 0 0 + (i : ℤ) * oneDay) := by
      rw [hk, List.get?_map, List.get?_range hi2]
      rfl
    rw [e1] at e2
    have hdate := Option.some.inj e2
    refine ⟨hdate, ?_⟩
    rw [hdate]
    simp only [oneDay]
    generalize datetime 2023 2 1 0 0 = d
    omega
  · intro cr start refO modelO cursor current cursor1 hok
    simp only [create_metrics] at hok
    cases hcm : calculate_metricsObj cr current modelO refO with
    | error e => rw [hcm] at hok; exact absurd hok (by simp)
    | ok res =>
      rw [hcm] at hok
      obtain ⟨⟨a, b, c⟩, cur⟩ := res
      refine ⟨a, b, c, ?_⟩
      simpa using hok.symm

/-- Witness for C10 at the all-mocks environment. -/
theorem monitor_timestamps_window_start_witness :
    envC2.pg.outerOk = true ∧ envC2.pg.innerOk = true ∧ envC2.monConnectOk = true ∧
    (persistsWindowStart (monitorNoReinit envC2) ∧
      (∀ (cr : ReportGen) (start : ℤ) (refO modelO : PyObj) (cursor : List SqlStmt)
          (current : DataFrame) (cursor1 : List SqlStmt),
        create_metrics cr start refO modelO cursor current = .ok cursor1 →
        ∃ a b c : JVal, cursor1 = save_metrics_to_db cursor start a b c) ∧
      (monitor envC2).cursor = []) :=
  ⟨rfl, rfl, rfl, monitor_timestamps_window_start envC2 rfl rfl rfl⟩
